import Mathlib

/-!
Verification of the Parallel AI backend (src/backend) against its design
specification.  The development shallowly embeds the chat orchestration path
of `main.py`, the draft/synthesis helpers of `spoon_os.py` /
`spoon_official.py`, the client pool of `config.py`, and the parts of the
design that the sources only declare (summary-check, outreach confirmation,
team persistence), which are modelled from the specification text and marked
as such in their doc comments.

Conventions of the embedding:
* machine strings are Lean `String`; the Python string primitives the
  sources use (`str.strip()`, `str.lower()`, slicing `s[:n]`, `pat in s`)
  are re-implemented below over the underlying character list so that every
  definition evaluates by kernel reduction;
* the external chat-completion service is an oracle
  `Oracle : String → List ChatMsg → Except String String` (agent id picks the
  configured client, the message list is the request payload); a raised
  provider exception is `Except.error`;
* the SQL store is a list kept in chronological (ascending `created_at`)
  order, because every writer appends with the current timestamp, so
  `ORDER BY created_at ASC` is the identity and `ORDER BY created_at DESC`
  is `List.reverse`; `LIMIT n` is `List.take n`;
* opaque OpenAI client handles are `Client := Nat`.
-/

-- ───────────────────────── string primitives ─────────────────────────

/-- The apostrophe character, kept as a named constant so string literals in
the embedding can be written without quoting issues. -/
def APOS : String := String.singleton (Char.ofNat 39)

/-- Python `str.lower()` (ASCII case folding suffices for the sources). -/
def strLower (s : String) : String := String.mk (s.data.map Char.toLower)

/-- Python `str.upper()` on a slice (used by `str.title()`). -/
def strUpper (s : String) : String := String.mk (s.data.map Char.toUpper)

/-- Python `str.strip()`: drop leading and trailing whitespace. -/
def strTrim (s : String) : String :=
  String.mk (((s.data.dropWhile Char.isWhitespace).reverse.dropWhile
    Char.isWhitespace).reverse)

/-- Python slicing `s[:n]`. -/
def strTake (n : Nat) (s : String) : String := String.mk (s.data.take n)

/-- Python slicing `s[n:]`. -/
def strDrop (n : Nat) (s : String) : String := String.mk (s.data.drop n)

/-- Does the character list `xs` start with `pat`? -/
def headMatches : List Char → List Char → Bool
  | _, [] => true
  | [], _ :: _ => false
  | x :: xs, p :: ps => x = p && headMatches xs ps

/-- Split a character list at the first occurrence of the (nonempty in all
uses) pattern `pat`: `some (before, after)` with the occurrence removed,
`none` when `pat` does not occur. -/
def breakOn (pat : List Char) : List Char → Option (List Char × List Char)
  | [] => if pat.isEmpty then some ([], []) else none
  | x :: rest =>
    if headMatches (x :: rest) pat then some ([], (x :: rest).drop pat.length)
    else
      match breakOn pat rest with
      | some (pre, post) => some (x :: pre, post)
      | none => none

/-- Python `pat in s`. -/
def containsSubstr (s pat : String) : Bool := (breakOn pat.data s.data).isSome

/-- Everything after the first occurrence of `marker` in `s`, or `none` when
`marker` does not occur. -/
def afterFirst (marker s : String) : Option String :=
  (breakOn marker.data s.data).map (fun p => String.mk p.2)

/-- Everything before the first occurrence of `marker` in `s`, or `none`
when `marker` does not occur. -/
def upTo (marker s : String) : Option String :=
  (breakOn marker.data s.data).map (fun p => String.mk p.1)

/-- Python `str.title()` restricted to one-word strings (all agent ids in the
sources are single lowercase words): capitalize the first character,
lowercase the rest. -/
def pyTitle (s : String) : String := strUpper (strTake 1 s) ++ strLower (strDrop 1 s)

/-- Opaque handle for a configured OpenAI client (config.py `make_client`). -/
abbrev Client := Nat

/-- One entry of a chat-completion request payload. -/
structure ChatMsg where
  role : String
  content : String
deriving DecidableEq

/-- The external model-call service (spec §6): given the agent id whose
client is used and the request messages, returns the completion text or
raises a provider error. -/
abbrev Oracle := String → List ChatMsg → Except String String

-- ───────────────────────── config.py / client pool ─────────────────────────

/-- main.py `_client_for_user`: look up the client for the user's trimmed,
lowercased name, falling back to the `"sean"` client, then to the first
configured client, else `None`.  The Python `or` chain on (always truthy)
client objects is the `match` fallthrough; `user.name or ""` is
`name?.getD ""`. -/
def client_for_user (clients : List (String × Client)) (name? : Option String) :
    Option Client :=
  let nm := strLower (strTrim (name?.getD ""))
  match clients.lookup nm with
  | some c => some c
  | none =>
    match clients.lookup "sean" with
    | some c => some c
    | none => (clients.map Prod.snd).head?

-- ───────────────────────── spoon_os.py / spoon_official.py ─────────────────

/-- The fixed team roster (spoon_os.py / spoon_official.py `TEAM`). -/
def TEAM : List String := ["yug", "sean", "severin", "nayab"]

/-- Display names (spoon_os.py / spoon_official.py `NAMES`). -/
def NAMES : List (String × String) :=
  [("yug", "Yug"), ("sean", "Sean"), ("severin", "Severin"), ("nayab", "Nayab")]

/-- `NAMES.get(agent_id, agent_id.title())`. -/
def displayName (agent_id : String) : String :=
  (NAMES.lookup agent_id).getD (pyTitle agent_id)

/-- The request payload built by `_chat_as` (identical in spoon_os.py and
spoon_official.py). -/
def chat_as_msgs (agent_id sys_ctx asker prompt : String) : List ChatMsg :=
  [ { role := "system", content := sys_ctx },
    { role := "system",
      content := "You are " ++ displayName agent_id ++ ". Provide your perspective." },
    { role := "user", content := asker ++ " asks:\n" ++ prompt } ]

/-- `_chat_as`: one model call for one agent. -/
def chat_as (oracle : Oracle) (agent_id sys_ctx asker prompt : String) :
    Except String String :=
  oracle agent_id (chat_as_msgs agent_id sys_ctx asker prompt)

/-- The sequential drafting loop shared by spoon_os.py `ask_team` (a dict
comprehension over `TEAM`) and spoon_official.py `node_ask_team` (a `for`
loop over `TEAM`): agents are called in list order; the first raised
exception aborts the whole batch.  The first component records the model
calls actually issued (for the no-retry property); the second is the
resulting draft mapping (a dict in insertion order). -/
def drafts_go (oracle : Oracle) (sys_ctx asker prompt : String) :
    List String → List String × Except String (List (String × String))
  | [] => ([], Except.ok [])
  | a :: rest =>
    match chat_as oracle a sys_ctx asker prompt with
    | Except.error e => ([a], Except.error e)
    | Except.ok t =>
      let p := drafts_go oracle sys_ctx asker prompt rest
      (a :: p.1, p.2.map (fun ds => (a, t) :: ds))

/-- spoon_os.py `ask_team`. -/
def ask_team (oracle : Oracle) (asker prompt sys_ctx : String) :
    Except String (List (String × String)) :=
  (drafts_go oracle sys_ctx asker prompt TEAM).2

/-- spoon_official.py `node_ask_one` target resolution:
`state.get("target") or "yug"` (Python `or` treats both a missing key and an
empty string as absent). -/
def resolve_target (t? : Option String) : String :=
  match t? with
  | some s => if s = "" then "yug" else s
  | none => "yug"

/-- spoon_official.py `node_ask_one`: one model call for the resolved target,
returning a one-entry draft mapping. -/
def node_ask_one (oracle : Oracle) (sys_ctx asker prompt : String)
    (t? : Option String) : Except String (List (String × String)) :=
  let target := resolve_target t?
  (chat_as oracle target sys_ctx asker prompt).map (fun text => [(target, text)])

/-- The request payload built by spoon_os.py `synthesize` /
spoon_official.py `node_synthesize`. -/
def synthesize_msgs (asker prompt sys_ctx : String)
    (drafts : List (String × String)) : List ChatMsg :=
  [ { role := "system",
      content := "You are the coordinator. Synthesize drafts into one clear answer with 2–5 next steps." },
    { role := "system", content := sys_ctx },
    { role := "user",
      content := "Latest human message from " ++ asker ++ ":\n" ++ prompt } ] ++
  drafts.map (fun p =>
    { role := "assistant", content := displayName p.1 ++ " draft:\n" ++ p.2 })

/-- spoon_os.py `synthesize`: one model call with the coordinator client. -/
def synthesize (oracle : Oracle) (asker prompt sys_ctx : String)
    (drafts : List (String × String)) : Except String String :=
  oracle "coordinator" (synthesize_msgs asker prompt sys_ctx drafts)

-- ───────────────────────── main.py: data model ─────────────────────────

/-- A row of the `users` table as the chat path consumes it. -/
structure PyUser where
  id : String
  name : String
deriving DecidableEq

/-- A row of the `messages` table (models.py `Message`), restricted to the
columns the chat path writes and reads. -/
structure Msg where
  sender_id : String
  sender_name : String
  role : String
  content : String
deriving DecidableEq

/-- A row of the `activities` table as `_save_activity` writes it. -/
structure Act where
  user_name : String
  summary : String
deriving DecidableEq

/-- The committed database state the chat path touches, each table in
chronological order. -/
structure ChatState where
  msgs : List Msg
  acts : List Act
deriving DecidableEq

/-- Outcome of the one model call `_do_chat` issues: the completion content
(`None` content is the empty string) or a raised provider exception. -/
inductive ModelOutcome where
  | ok : String → ModelOutcome
  | err : String → ModelOutcome
deriving DecidableEq

-- ───────────────────────── main.py: context builder ─────────────────────────

/-- One line of the `== SHARED CONVERSATION ==` block:
`f"{m.sender_name}: {m.content[:300]}"`. -/
def historyLine (m : Msg) : String := m.sender_name ++ ": " ++ strTake 300 m.content

/-- main.py `_build_system_prompt` message slice:
`query(Message).order_by(created_at.asc()).limit(30)` over the
chronologically ordered store is `take 30` (the oldest 30 rows). -/
def historyLines (msgs : List Msg) : List String := (msgs.take 30).map historyLine

/-- One line of the `== TEAM ACTIVITY ==` block. -/
def activityLine (a : Act) : String := "- " ++ a.user_name ++ ": " ++ a.summary

/-- main.py `_build_system_prompt` activity slice:
`order_by(created_at.desc()).limit(15)` then `reversed(...)` over the
chronologically ordered store: the most recent 15 rows, oldest first. -/
def activityLines (acts : List Act) : List String :=
  ((acts.reverse.take 15).reverse).map activityLine

/-- Python `"\n".join(lines) or "(none)"`: the falsy-empty-string fallback. -/
def joinOrNone (lines : List String) : String :=
  let j := String.intercalate "\n" lines
  if j = "" then "(none)" else j

/-- main.py `_build_system_prompt`. -/
def build_system_prompt (msgs : List Msg) (acts : List Act)
    (userName phone : String) : String :=
  let activity_text := joinOrNone (activityLines acts)
  let history := joinOrNone (historyLines msgs)
  "You are " ++ userName ++ APOS ++
  "s personal AI assistant in a team workspace.\n\n== TEAM ACTIVITY ==\n" ++
  activity_text ++ "\n\n== SHARED CONVERSATION ==\n" ++ history ++
  "\n\nYou speak only to " ++ userName ++
  ". Refer to teammates by name. If asked what someone is working on, use the activity and conversation above.\n\nTOOLS AVAILABLE (mention these when relevant):\n- Research: user can click \"Research\" to have an AGI web agent look things up in real time.\n- Actions: user can click \"Action\" to trigger Composio actions (send email, create calendar event, etc.).\n- Voice: teammates can call +1" ++
  phone ++ " to talk to their agent by phone."

-- ───────────────────────── main.py: chat endpoint ─────────────────────────

/-- The user message `chat` saves (`_save_msg(db, user.id, f"user:{user.id}",
user.name, "user", content)`). -/
def userMsgOf (u : PyUser) (content : String) : Msg :=
  { sender_id := "user:" ++ u.id, sender_name := u.name,
    role := "user", content := content }

/-- The assistant message `chat` saves (`_save_msg(db, user.id,
f"agent:{user.id}", f"{user.name}'s Agent", "assistant", tag + answer)`;
in normal chat mode `tag` is the empty string). -/
def botMsgOf (u : PyUser) (answer : String) : Msg :=
  { sender_id := "agent:" ++ u.id, sender_name := u.name ++ APOS ++ "s Agent",
    role := "assistant", content := answer }

/-- The activity row `chat` saves for a normal-chat pass:
`content[:70] + ("..." if len(content) > 70 else "")`. -/
def activityOf (u : PyUser) (content : String) : Act :=
  { user_name := u.name,
    summary := strTake 70 content ++ (if 70 < content.length then "..." else "") }

/-- main.py `_do_chat`: resolve the client; with no client return the
fallback string without a model call; otherwise issue the one model call and
return `(content or "").strip() or "No response."`, or `f"OpenAI error: {e}"`
for a raised exception.  The system prompt passed to the model is
`build_system_prompt`; its effect on the completion is inside the abstract
`outcome`. -/
def do_chat (clients : List (String × Client)) (u : PyUser)
    (outcome : ModelOutcome) : String :=
  match client_for_user clients (some u.name) with
  | none => "No AI client configured."
  | some _ =>
    match outcome with
    | ModelOutcome.ok t => if strTrim t = "" then "No response." else strTrim t
    | ModelOutcome.err e => "OpenAI error: " ++ e

/-- Observable steps of one `chat` request, in execution order. -/
inductive ChatEvent where
  | commitUser (m : Msg)
  | modelCall
  | commitReply (m : Msg)
deriving DecidableEq

/-- Successful result of one `chat` request: the event trace, the committed
state at the moment the model call is issued (`none` when no client is
configured, hence no call), the final committed state, and the returned
assistant message. -/
structure ChatOk where
  events : List ChatEvent
  stateAtModelCall : Option ChatState
  finalState : ChatState
  reply : Msg
deriving DecidableEq

/-- main.py `chat` endpoint, normal chat mode (`mode="chat"`; the research
and action branches likewise run only after the user-message commit).
Empty trimmed content is rejected with HTTP 400 before anything is
persisted; otherwise the user message is committed, `_do_chat` runs, and the
assistant message plus activity row are committed. -/
def chat (clients : List (String × Client)) (u : PyUser) (st : ChatState)
    (content0 : String) (outcome : ModelOutcome) : Except Nat ChatOk :=
  let content := strTrim content0
  if content = "" then Except.error 400
  else
    let um := userMsgOf u content
    let st1 : ChatState := { msgs := st.msgs ++ [um], acts := st.acts }
    let issued := (client_for_user clients (some u.name)).isSome
    let bm := botMsgOf u (do_chat clients u outcome)
    let st2 : ChatState :=
      { msgs := st1.msgs ++ [bm], acts := st1.acts ++ [activityOf u content] }
    Except.ok
      { events := ChatEvent.commitUser um ::
          ((if issued then [ChatEvent.modelCall] else []) ++
           [ChatEvent.commitReply bm]),
        stateAtModelCall := if issued then some st1 else none,
        finalState := st2,
        reply := bm }

/-- The two messages main.py `sms_incoming` saves for an accepted inbound
SMS: the user message with an `sms:<phone>` sender and the agent reply. -/
def smsMsgs (u : PyUser) (senderPhone text answer : String) : List Msg :=
  [ { sender_id := "sms:" ++ senderPhone, sender_name := u.name ++ " (SMS)",
      role := "user", content := text },
    { sender_id := "agent:" ++ u.id, sender_name := u.name ++ APOS ++ "s Agent",
      role := "assistant", content := "[SMS reply] " ++ answer } ]

/-- The user message main.py `voice_transcription` saves
(`f"voice:{user.id}"`). -/
def voiceUserMsg (u : PyUser) (transcription : String) : Msg :=
  { sender_id := "voice:" ++ u.id, sender_name := u.name ++ " (voice)",
    role := "user", content := transcription }

-- ──────────────── spec-modelled orchestration steps ────────────────

/-- Modelled from the spec: the `PERSISTED` step of the Conversation
Orchestrator for team mode (§4.4 rules 4 and 6) is not among the sources
(main.py has no team-mode route; spoon_os.py / spoon_official.py only
generate the drafts and the synthesis).  Per the spec, every generated draft
is written as one Message per agent in generation order, then the synthesis
message, before the response is returned. -/
def team_persist (drafts : List (String × String)) (synthesisText : String) :
    List Msg :=
  drafts.map (fun p =>
    { sender_id := "agent:" ++ p.1, sender_name := displayName p.1,
      role := "assistant", content := p.2 }) ++
  [ { sender_id := "agent:coordinator", sender_name := "Coordinator",
      role := "assistant", content := synthesisText } ]

/-- Modelled from the spec: the single-agent (`self`/`teammate`) reply step
(§4.4 rule 3, simplified variant) is not among the sources; the one draft
becomes the assistant reply directly. -/
def single_reply (drafts : List (String × String)) : Option String :=
  drafts.head?.map Prod.snd

/-- The literal summary-update marker convention (spec §4.3). -/
def hasMarker (s : String) : Bool := containsSubstr s "SUMMARY_UPDATE:"

/-- The proposed summary: the text after the first `SUMMARY_UPDATE:` marker. -/
def extractSummary (s : String) : String :=
  strTrim ((afterFirst "SUMMARY_UPDATE:" s).getD "")

/-- The room row (models.py `Room`), restricted to the summary fields the
summary-check step mutates. -/
structure Room where
  project_summary : String
  memory_summary : String
  summary_version : Nat
deriving DecidableEq

/-- Modelled from the spec: the Orchestrator's `SUMMARY_CHECK` step (§4.3,
§4.4 rule 5) is not among the sources (no caller of spoon_os.py `synthesize`
scans its output).  The returned text is scanned for the literal marker
`SUMMARY_UPDATE:`; presence triggers a write of both `project_summary` and
`memory_summary` (flag `true`), absence leaves the room untouched
(flag `false`). -/
def summary_check (room : Room) (synthesisText : String) : Room × Bool :=
  if hasMarker synthesisText then
    ({ project_summary := extractSummary synthesisText,
       memory_summary := extractSummary synthesisText,
       summary_version := room.summary_version + 1 }, true)
  else (room, false)

-- ──────────────── spec-modelled outreach-confirmation handler ────────────────

/-- A user of the organization, as the outreach handler resolves names. -/
structure OrgUser where
  id : String
  name : String
deriving DecidableEq

/-- Side effects the outreach handler can emit; `modelCall` is in the
vocabulary so that its absence is a provable statement. -/
inductive Effect where
  | modelCall
  | notify (user_id : String) (text : String)
deriving DecidableEq

/-- Result of `try_handle_confirmation`: whether the message was claimed,
the deterministic reply, and the emitted effects. -/
structure OutreachResult where
  handled : Bool
  reply : Option String
  effects : List Effect
deriving DecidableEq

/-- Modelled from the spec: the enumerated confirmation phrases of §4.5
("yes", "yes please", "send it", etc.). -/
def CONFIRM_PHRASES : List String :=
  ["yes", "yes please", "send it", "yep", "sure", "go ahead", "do it"]

/-- Case-insensitive normalization of the latest user text (§4.5 step 1). -/
def normalizePhrase (s : String) : String := strLower (strTrim s)

/-- §4.5 step 1: exact match of the normalized text against the phrase table. -/
def isConfirmation (s : String) : Bool :=
  CONFIRM_PHRASES.contains (normalizePhrase s)

/-- §4.5 step 2: the most recent assistant message of the room. -/
def lastAssistant (msgs : List Msg) : Option Msg :=
  msgs.reverse.find? (fun m => m.role = "assistant")

/-- §4.5 step 3: extract the previously suggested outbound message from the
literal textual pattern `message you could send to <Name>: "<text>"`;
the name token and the quoted text are captured verbatim. -/
def extractOutreach (content : String) : Option (String × String) := do
  let rest ← afterFirst "message you could send to " content
  let nm ← upTo (": " ++ "\"") rest
  let afterName ← afterFirst (": " ++ "\"") rest
  let txt ← upTo "\"" afterName
  pure (strTrim nm, txt)

/-- §4.5 step 4: resolve the captured name to a user of the organization by
case-insensitive exact name match. -/
def resolveUser (users : List OrgUser) (nm : String) : Option OrgUser :=
  users.find? (fun u => strLower u.name = strLower nm)

/-- Modelled from the spec: `try_handle_confirmation` (§4.5) is not among the
sources.  Steps: normalize and match the confirmation phrase; fetch the most
recent assistant message; pattern-extract the suggested message; resolve the
name inside the organization.  On resolution, emit a Notification carrying
the captured text verbatim and a deterministic confirmation reply; on an
unresolvable name, reply with a deterministic apology containing the draft
text (still handled, no Notification).  No branch issues a model call. -/
def try_handle_confirmation (users : List OrgUser) (msgs : List Msg)
    (latest_text : String) : OutreachResult :=
  if !isConfirmation latest_text then { handled := false, reply := none, effects := [] }
  else
    match lastAssistant msgs with
    | none => { handled := false, reply := none, effects := [] }
    | some m =>
      match extractOutreach m.content with
      | none => { handled := false, reply := none, effects := [] }
      | some (nm, txt) =>
        match resolveUser users nm with
        | some u =>
          { handled := true,
            reply := some ("Okay, I sent this message to " ++ nm ++ ": \"" ++ txt ++ "\""),
            effects := [Effect.notify u.id txt] }
        | none =>
          { handled := true,
            reply := some ("I could not find " ++ nm ++
              " in your organization. Here is the message so you can send it yourself: \"" ++
              txt ++ "\""),
            effects := [] }

-- ───────────────────────── helper lemmas ─────────────────────────

theorem drafts_go_keys (oracle : Oracle) (sys_ctx asker prompt : String) :
    ∀ (agents : List String) (ds : List (String × String)),
      (drafts_go oracle sys_ctx asker prompt agents).2 = Except.ok ds →
      ds.map Prod.fst = agents := by
  intro agents
  induction agents with
  | nil =>
    intro ds h
    simp [drafts_go] at h
    subst h
    rfl
  | cons a rest ih =>
    intro ds h
    rw [drafts_go] at h
    cases hc : chat_as oracle a sys_ctx asker prompt with
    | error e => rw [hc] at h; simp at h
    | ok t =>
      rw [hc] at h
      simp only at h
      cases hr : (drafts_go oracle sys_ctx asker prompt rest).2 with
      | error e => rw [hr] at h; simp [Except.map] at h
      | ok ds' =>
        rw [hr] at h
        simp [Except.map] at h
        subst h
        simp [ih ds' hr]

theorem drafts_go_err (oracle : Oracle) (sys_ctx asker prompt : String) :
    ∀ agents : List String,
      (∃ a ∈ agents, ∃ e, chat_as oracle a sys_ctx asker prompt = Except.error e) →
      ∃ e, (drafts_go oracle sys_ctx asker prompt agents).2 = Except.error e := by
  intro agents
  induction agents with
  | nil =>
    rintro ⟨a, ha, _⟩
    simp at ha
  | cons b rest ih =>
    rintro ⟨a, ha, e, he⟩
    cases hc : chat_as oracle b sys_ctx asker prompt with
    | error e2 =>
      refine ⟨e2, ?_⟩
      rw [drafts_go, hc]
    | ok t =>
      rcases List.mem_cons.mp ha with rfl | hmem
      · rw [hc] at he
        exact absurd he (by simp)
      · obtain ⟨e2, h2⟩ := ih ⟨a, hmem, e, he⟩
        refine ⟨e2, ?_⟩
        rw [drafts_go, hc]
        simp only
        rw [h2]
        rfl

theorem drafts_go_log_take (oracle : Oracle) (sys_ctx asker prompt : String) :
    ∀ agents : List String,
      ∃ n, (drafts_go oracle sys_ctx asker prompt agents).1 = agents.take n := by
  intro agents
  induction agents with
  | nil => exact ⟨0, rfl⟩
  | cons a rest ih =>
    cases hc : chat_as oracle a sys_ctx asker prompt with
    | error e =>
      refine ⟨1, ?_⟩
      rw [drafts_go, hc]
      simp
    | ok t =>
      obtain ⟨n, hn⟩ := ih
      refine ⟨n + 1, ?_⟩
      rw [drafts_go, hc]
      simp [hn]

-- ───────────────────────── claims C5, C2, C6 ─────────────────────────

/-- Claim C5: for every requested agent set, the drafting loop returns
exactly one draft per requested agent (in order); a model-call failure for
any single agent surfaces as an error for the whole batch, with no partial
draft mapping returned; and no requested agent's model call is issued more
than once (no internal retry).  `ask_team` is this loop instantiated at the
fixed roster. -/
theorem generate_drafts_all_or_nothing (oracle : Oracle)
    (sys_ctx asker prompt : String) (agents : List String)
    (hnd : agents.Nodup) :
    (∀ ds, (drafts_go oracle sys_ctx asker prompt agents).2 = Except.ok ds →
      ds.map Prod.fst = agents) ∧
    ((∃ a ∈ agents, ∃ e, chat_as oracle a sys_ctx asker prompt = Except.error e) →
      ∃ e, (drafts_go oracle sys_ctx asker prompt agents).2 = Except.error e) ∧
    (∀ a, (drafts_go oracle sys_ctx asker prompt agents).1.count a ≤ 1) ∧
    ask_team oracle asker prompt sys_ctx =
      (drafts_go oracle sys_ctx asker prompt TEAM).2 := by
  refine ⟨fun ds h => drafts_go_keys oracle sys_ctx asker prompt agents ds h,
    drafts_go_err oracle sys_ctx asker prompt agents, ?_, rfl⟩
  intro a
  obtain ⟨n, hn⟩ := drafts_go_log_take oracle sys_ctx asker prompt agents
  rw [hn]
  calc (agents.take n).count a ≤ agents.count a :=
        (List.take_sublist n agents).count_le a
    _ ≤ 1 := List.nodup_iff_count_le_one.mp hnd a

/-- Witness for C5 at the fixed roster with an oracle whose third member
fails: the batch errors as a whole. -/
theorem generate_drafts_all_or_nothing_witness :
    TEAM.Nodup ∧
    (∃ e, (drafts_go
      (fun a _ => if a = "severin" then Except.error "rate limit"
                  else Except.ok ("d-" ++ a)) "ctx" "u" "p" TEAM).2 =
        Except.error e) :=
  ⟨by decide,
   (generate_drafts_all_or_nothing
      (fun a _ => if a = "severin" then Except.error "rate limit"
                  else Except.ok ("d-" ++ a)) "ctx" "u" "p" TEAM
      (by decide)).2.1 ⟨"severin", by decide, "rate limit", rfl⟩⟩

/-- Claim C2: in team mode, a successful drafting pass yields exactly one
draft per member of the fixed 4-member roster, enumerated in the roster's
insertion order, and the persisted sequence is the 4 per-agent draft
messages followed by exactly 1 synthesis message, in that relative order. -/
theorem team_drafts_roster_and_synthesis_order (oracle : Oracle)
    (asker prompt sys_ctx synthText : String) (ds : List (String × String))
    (h : ask_team oracle asker prompt sys_ctx = Except.ok ds) :
    ds.map Prod.fst = TEAM ∧
    ds.length = 4 ∧
    (team_persist ds synthText).length = 5 ∧
    (team_persist ds synthText).map Msg.sender_id =
      ["agent:yug", "agent:sean", "agent:severin", "agent:nayab",
       "agent:coordinator"] ∧
    (team_persist ds synthText).map Msg.content = ds.map Prod.snd ++ [synthText] := by
  have hkeys : ds.map Prod.fst = TEAM :=
    drafts_go_keys oracle sys_ctx asker prompt TEAM ds h
  have hlen : ds.length = 4 := by
    have := congrArg List.length hkeys
    simpa [TEAM] using this
  refine ⟨hkeys, hlen, ?_, ?_, ?_⟩
  · simp [team_persist, hlen]
  · have : (team_persist ds synthText).map Msg.sender_id =
        (ds.map Prod.fst).map (fun a => "agent:" ++ a) ++ ["agent:coordinator"] := by
      simp [team_persist, List.map_map]
    rw [this, hkeys]
    decide
  · simp [team_persist, List.map_map]

/-- Witness for C2 with an oracle that succeeds for every roster member. -/
theorem team_drafts_roster_and_synthesis_order_witness :
    (team_persist [("yug", "d-yug"), ("sean", "d-sean"), ("severin", "d-severin"),
      ("nayab", "d-nayab")] "final").map Msg.sender_id =
      ["agent:yug", "agent:sean", "agent:severin", "agent:nayab",
       "agent:coordinator"] :=
  (team_drafts_roster_and_synthesis_order (fun a _ => Except.ok ("d-" ++ a))
    "u" "p" "ctx" "final"
    [("yug", "d-yug"), ("sean", "d-sean"), ("severin", "d-severin"),
     ("nayab", "d-nayab")] rfl).2.2.2.1

/-- Claim C6: in self/teammate mode exactly one target agent is resolved —
the explicit (non-empty) `target_agent` when provided, otherwise the fixed
default `"yug"` — exactly one draft is produced with no roster fan-out, and
that draft becomes the assistant reply. -/
theorem single_mode_resolves_one_target (oracle : Oracle)
    (sys_ctx asker prompt txt : String) (t? : Option String)
    (h : chat_as oracle (resolve_target t?) sys_ctx asker prompt = Except.ok txt) :
    node_ask_one oracle sys_ctx asker prompt t? =
      Except.ok [(resolve_target t?, txt)] ∧
    (∀ s, t? = some s → s ≠ "" → resolve_target t? = s) ∧
    (t? = none → resolve_target t? = "yug") ∧
    (∀ ds, node_ask_one oracle sys_ctx asker prompt t? = Except.ok ds →
      ds.length = 1 ∧ single_reply ds = some txt) := by
  have h1 : node_ask_one oracle sys_ctx asker prompt t? =
      Except.ok [(resolve_target t?, txt)] := by
    simp only [node_ask_one]
    rw [h]
    rfl
  refine ⟨h1, ?_, ?_, ?_⟩
  · rintro s rfl hs
    simp [resolve_target, hs]
  · rintro rfl
    rfl
  · intro ds hds
    rw [h1] at hds
    have : [(resolve_target t?, txt)] = ds := by
      simpa using hds
    subst this
    exact ⟨rfl, rfl⟩

/-- Witness for C6 at an explicitly provided target. -/
theorem single_mode_resolves_one_target_witness :
    node_ask_one (fun a _ => Except.ok ("d-" ++ a)) "ctx" "u" "p" (some "sean") =
      Except.ok [("sean", "d-sean")] ∧
    resolve_target (some "sean") = "sean" :=
  ⟨(single_mode_resolves_one_target (fun a _ => Except.ok ("d-" ++ a))
      "ctx" "u" "p" "d-sean" (some "sean") rfl).1,
   (single_mode_resolves_one_target (fun a _ => Except.ok ("d-" ++ a))
      "ctx" "u" "p" "d-sean" (some "sean") rfl).2.1 "sean" rfl (by decide)⟩

-- ───────────────────────── claim C3 ─────────────────────────

/-- Claim C3: the room's summary fields change only on synthesis text
containing the literal marker `SUMMARY_UPDATE:`; without the marker the room
(in particular `project_summary`) is byte-identical before and after, and
with the marker a summary write of both fields occurs. -/
theorem summary_marker_gates_summary_write (room : Room) (synthText : String) :
    (hasMarker synthText = false → summary_check room synthText = (room, false)) ∧
    (hasMarker synthText = true →
      (summary_check room synthText).2 = true ∧
      (summary_check room synthText).1.project_summary = extractSummary synthText ∧
      (summary_check room synthText).1.memory_summary = extractSummary synthText) ∧
    ((summary_check room synthText).1 ≠ room → hasMarker synthText = true) ∧
    ((summary_check room synthText).2 = true ↔ hasMarker synthText = true) := by
  cases hm : hasMarker synthText with
  | false =>
    refine ⟨fun _ => by simp [summary_check, hm],
      fun ht => absurd ht (by decide), ?_, ?_⟩
    · intro hne
      exact absurd (by simp [summary_check, hm]) hne
    · simp [summary_check, hm]
  | true =>
    refine ⟨fun hf => absurd hf (by decide), fun _ => ?_,
      fun _ => rfl, by simp [summary_check, hm]⟩
    simp [summary_check, hm]

/-- Witness for C3: a marker-free synthesis leaves the summary byte-identical;
a marker-bearing one sets the write flag. -/
theorem summary_marker_gates_summary_write_witness :
    summary_check ⟨"a", "b", 1⟩ "all good, ship tomorrow" = (⟨"a", "b", 1⟩, false) ∧
    (summary_check ⟨"a", "b", 1⟩ "plan SUMMARY_UPDATE: ship it").2 = true :=
  ⟨(summary_marker_gates_summary_write ⟨"a", "b", 1⟩ "all good, ship tomorrow").1
      (by decide),
   ((summary_marker_gates_summary_write ⟨"a", "b", 1⟩
      "plan SUMMARY_UPDATE: ship it").2.1 (by decide)).1⟩

-- ───────────────────────── claim C4 ─────────────────────────

/-- Claim C4: for every outreach confirmation (a prior assistant message
matching the `message you could send to <Name>: "<text>"` pattern followed
by a user confirmation phrase) whose name resolves, the handler emits
exactly one Notification for the resolved recipient carrying the captured
draft text verbatim, and the entire handling path performs zero model calls
on every input. -/
theorem outreach_confirmation_verbatim_no_model_call
    (users : List OrgUser) (msgs : List Msg) (latest : String) (m : Msg)
    (nm txt : String) (u : OrgUser)
    (hconf : isConfirmation latest = true)
    (hlast : lastAssistant msgs = some m)
    (hext : extractOutreach m.content = some (nm, txt))
    (hres : resolveUser users nm = some u) :
    (try_handle_confirmation users msgs latest).handled = true ∧
    (try_handle_confirmation users msgs latest).effects =
      [Effect.notify u.id txt] ∧
    (try_handle_confirmation users msgs latest).reply =
      some ("Okay, I sent this message to " ++ nm ++ ": \"" ++ txt ++ "\"") ∧
    (∀ us2 ms2 t2, Effect.modelCall ∉ (try_handle_confirmation us2 ms2 t2).effects) := by
  refine ⟨?_, ?_, ?_, ?_⟩
  · simp [try_handle_confirmation, hconf, hlast, hext, hres]
  · simp [try_handle_confirmation, hconf, hlast, hext, hres]
  · simp [try_handle_confirmation, hconf, hlast, hext, hres]
  · intro us2 ms2 t2
    unfold try_handle_confirmation
    cases h1 : isConfirmation t2
    · simp
    · simp only [Bool.not_true, Bool.false_eq_true, if_false]
      cases h2 : lastAssistant ms2 with
      | none => simp
      | some m2 =>
        cases h3 : extractOutreach m2.content with
        | none => simp [h3]
        | some p =>
          obtain ⟨nm2, txt2⟩ := p
          cases h4 : resolveUser us2 nm2 with
          | none => simp [h3, h4]
          | some u2 => simp [h3, h4]

/-- Witness for C4 at the spec's own example: prior assistant suggestion to
Alice, user says "yes please", Notification carries the text verbatim. -/
theorem outreach_confirmation_verbatim_no_model_call_witness :
    (try_handle_confirmation [⟨"alice-id", "Alice"⟩]
      [{ sender_id := "agent:x", sender_name := "Agent", role := "assistant",
         content := "Here is a message you could send to Alice: \"Ping the design team\"" }]
      "yes please").effects =
      [Effect.notify "alice-id" "Ping the design team"] :=
  (outreach_confirmation_verbatim_no_model_call [⟨"alice-id", "Alice"⟩]
    [{ sender_id := "agent:x", sender_name := "Agent", role := "assistant",
       content := "Here is a message you could send to Alice: \"Ping the design team\"" }]
    "yes please"
    { sender_id := "agent:x", sender_name := "Agent", role := "assistant",
      content := "Here is a message you could send to Alice: \"Ping the design team\"" }
    "Alice" "Ping the design team" ⟨"alice-id", "Alice"⟩
    (by decide) (by decide) (by decide) (by decide)).2.1

-- ───────────────────────── claim C1 ─────────────────────────

/-- Claim C1: for every inbound chat request with non-empty (trimmed)
content, the user's message is committed strictly before any model call is
issued — the first event is the user-message commit, and the committed store
at the moment of the model call already contains it — and for every model
outcome (success or raised error) the user message is still in the final
store, which only extends the store committed before the call (never a
rollback). -/
theorem chat_persists_user_before_model_call
    (clients : List (String × Client)) (u : PyUser) (st : ChatState)
    (content0 : String) (outcome : ModelOutcome)
    (h : ¬ strTrim content0 = "") :
    ∃ r, chat clients u st content0 outcome = Except.ok r ∧
      r.events.head? = some (ChatEvent.commitUser (userMsgOf u (strTrim content0))) ∧
      (∀ s1, r.stateAtModelCall = some s1 →
        userMsgOf u (strTrim content0) ∈ s1.msgs ∧
        ∃ rest, r.finalState.msgs = s1.msgs ++ rest) ∧
      userMsgOf u (strTrim content0) ∈ r.finalState.msgs := by
  unfold chat
  rw [if_neg h]
  refine ⟨_, rfl, rfl, ?_, ?_⟩
  · intro s1 hs1
    cases hi : (client_for_user clients (some u.name)).isSome
    · rw [hi] at hs1
      simp at hs1
    · rw [hi] at hs1
      simp only [if_true] at hs1
      cases hs1
      constructor
      · simp
      · exact ⟨_, rfl⟩
  · simp

/-- Witness for C1: a concrete request whose model call raises; the user
message is committed before the call and survives it. -/
theorem chat_persists_user_before_model_call_witness :
    ¬ strTrim "  hi  " = "" ∧
    (∃ r, chat [("sean", 0)] ⟨"u1", "Sean"⟩ ⟨[], []⟩ "  hi  "
        (ModelOutcome.err "boom") = Except.ok r ∧
      r.events.head? =
        some (ChatEvent.commitUser (userMsgOf ⟨"u1", "Sean"⟩ (strTrim "  hi  "))) ∧
      (∀ s1, r.stateAtModelCall = some s1 →
        userMsgOf ⟨"u1", "Sean"⟩ (strTrim "  hi  ") ∈ s1.msgs ∧
        ∃ rest, r.finalState.msgs = s1.msgs ++ rest) ∧
      userMsgOf ⟨"u1", "Sean"⟩ (strTrim "  hi  ") ∈ r.finalState.msgs) :=
  ⟨by decide,
   chat_persists_user_before_model_call [("sean", 0)] ⟨"u1", "Sean"⟩ ⟨[], []⟩
     "  hi  " (ModelOutcome.err "boom") (by decide)⟩

-- ───────────────────────── claim C8 ─────────────────────────

/-- Counterexample for C8 as stated: a raised model-call exception is
converted into a persisted assistant message, but its text is
`"OpenAI error: <e>"` — it embeds the raw exception payload (`"boom"` occurs
in the persisted content) and is not the generic user-safe text. -/
theorem chat_error_payload_counterexample :
    ∃ r, chat [("sean", 0)] ⟨"u1", "Sean"⟩ ⟨[], []⟩ "hi"
        (ModelOutcome.err "boom") = Except.ok r ∧
      r.reply.role = "assistant" ∧
      r.reply.content = "OpenAI error: boom" ∧
      r.reply.content ≠ "Something went wrong. Try again." ∧
      containsSubstr r.reply.content "boom" = true := by
  refine ⟨_, rfl, ?_, ?_, ?_, ?_⟩ <;> decide

/-- Claim C8 as amended: every model-call exception is caught at the
orchestration boundary and converted into a persisted assistant-role message
whose text is `"OpenAI error: "` followed by the exception text (not a
generic message); the request still completes as a degraded-but-successful
response, with the user message and the assistant message both committed. -/
theorem chat_error_degraded_reply_amended
    (clients : List (String × Client)) (u : PyUser) (st : ChatState)
    (content0 e : String) (c : Client)
    (h : ¬ strTrim content0 = "")
    (hc : client_for_user clients (some u.name) = some c) :
    ∃ r, chat clients u st content0 (ModelOutcome.err e) = Except.ok r ∧
      r.reply.role = "assistant" ∧
      r.reply.content = "OpenAI error: " ++ e ∧
      r.finalState.msgs =
        st.msgs ++ [userMsgOf u (strTrim content0), r.reply] ∧
      r.events.getLast? = some (ChatEvent.commitReply r.reply) := by
  have hdo : do_chat clients u (ModelOutcome.err e) = "OpenAI error: " ++ e := by
    unfold do_chat
    rw [hc]
  unfold chat
  rw [if_neg h]
  refine ⟨_, rfl, rfl, ?_, ?_, ?_⟩
  · simp [botMsgOf, hdo]
  · simp
  · rw [hc]
    simp

/-- Witness for C8 (amended): concrete failing model call. -/
theorem chat_error_degraded_reply_amended_witness :
    ¬ strTrim "hi" = "" ∧
    client_for_user [("sean", 0)] (some "Sean") = some 0 ∧
    (∃ r, chat [("sean", 0)] ⟨"u1", "Sean"⟩ ⟨[], []⟩ "hi"
        (ModelOutcome.err "boom") = Except.ok r ∧
      r.reply.role = "assistant" ∧
      r.reply.content = "OpenAI error: " ++ "boom" ∧
      r.finalState.msgs =
        [] ++ [userMsgOf ⟨"u1", "Sean"⟩ (strTrim "hi"), r.reply] ∧
      r.events.getLast? = some (ChatEvent.commitReply r.reply)) :=
  ⟨by decide, by decide,
   chat_error_degraded_reply_amended [("sean", 0)] ⟨"u1", "Sean"⟩ ⟨[], []⟩
     "hi" "boom" 0 (by decide) (by decide)⟩

-- ───────────────────────── claim C9 ─────────────────────────

/-- The tagged-union shape of a persisted sender identifier (spec §3). -/
def TaggedForm (s : String) : Prop :=
  (∃ t, s = "user:" ++ t) ∨ (∃ t, s = "agent:" ++ t) ∨
  (∃ t, s = "voice:" ++ t) ∨ (∃ t, s = "sms:" ++ t)

/-- A sender identifier that is not of the `agent:` form. -/
def NonAgentId (s : String) : Prop := ∀ t, s ≠ "agent:" ++ t

theorem strDataAppend (a b : String) : (a ++ b).data = a.data ++ b.data := by
  cases a
  cases b
  rfl

theorem cons_append_ne_of_head_ne {c d : Char} {p q x t : List Char}
    (hcd : c ≠ d) : (c :: p) ++ x ≠ (d :: q) ++ t := by
  intro hEq
  have h4 := congrArg List.head? hEq
  simp only [List.cons_append, List.head?_cons, Option.some.injEq] at h4
  exact hcd h4

theorem user_tag_ne_agent_tag (x t : String) : "user:" ++ x ≠ "agent:" ++ t := by
  intro hEq
  have h2 := congrArg String.data hEq
  rw [strDataAppend, strDataAppend] at h2
  exact cons_append_ne_of_head_ne (by decide) h2

theorem sms_tag_ne_agent_tag (x t : String) : "sms:" ++ x ≠ "agent:" ++ t := by
  intro hEq
  have h2 := congrArg String.data hEq
  rw [strDataAppend, strDataAppend] at h2
  exact cons_append_ne_of_head_ne (by decide) h2

theorem voice_tag_ne_agent_tag (x t : String) : "voice:" ++ x ≠ "agent:" ++ t := by
  intro hEq
  have h2 := congrArg String.data hEq
  rw [strDataAppend, strDataAppend] at h2
  exact cons_append_ne_of_head_ne (by decide) h2

/-- Counterexample for C9 as stated: on the chat path the assistant-role
message's sender identifier is `agent:` followed by the owning user's id
(`"agent:u1"`), not `agent:<name>` — it differs both from `agent:` plus the
user's display name and from `agent:` plus the message's own sender name. -/
theorem chat_sender_id_counterexample :
    ∃ r, chat [("sean", 0)] ⟨"u1", "Sean"⟩ ⟨[], []⟩ "hi"
        (ModelOutcome.ok "hello") = Except.ok r ∧
      r.reply.role = "assistant" ∧
      r.reply.sender_id = "agent:u1" ∧
      r.reply.sender_id ≠ "agent:Sean" ∧
      r.reply.sender_id ≠ "agent:" ++ r.reply.sender_name := by
  refine ⟨_, rfl, ?_, ?_, ?_, ?_⟩ <;> decide

/-- Claim C9 as amended: every message persisted by the chat, SMS and voice
paths carries a sender identifier of the tagged-union form `user:<id>`,
`agent:<...>`, `voice:<id>` or `sms:<phone>`; the chat path's assistant-role
message carries `agent:` followed by the owning user's id (not the agent
display name); and every user-role message has a non-`agent:` prefix. -/
theorem sender_id_tagged_union_amended
    (clients : List (String × Client)) (u : PyUser) (st : ChatState)
    (content0 : String) (outcome : ModelOutcome)
    (senderPhone text answer transcription : String)
    (h : ¬ strTrim content0 = "") :
    ∃ r, chat clients u st content0 outcome = Except.ok r ∧
      r.finalState.msgs = st.msgs ++ [userMsgOf u (strTrim content0), r.reply] ∧
      TaggedForm (userMsgOf u (strTrim content0)).sender_id ∧
      NonAgentId (userMsgOf u (strTrim content0)).sender_id ∧
      (userMsgOf u (strTrim content0)).role = "user" ∧
      r.reply.sender_id = "agent:" ++ u.id ∧
      r.reply.role = "assistant" ∧
      TaggedForm r.reply.sender_id ∧
      (∀ m ∈ smsMsgs u senderPhone text answer, TaggedForm m.sender_id) ∧
      (∀ m ∈ smsMsgs u senderPhone text answer, m.role = "user" →
        NonAgentId m.sender_id) ∧
      TaggedForm (voiceUserMsg u transcription).sender_id ∧
      NonAgentId (voiceUserMsg u transcription).sender_id := by
  unfold chat
  rw [if_neg h]
  refine ⟨_, rfl, by simp, Or.inl ⟨u.id, rfl⟩, user_tag_ne_agent_tag u.id, rfl,
    rfl, rfl, Or.inr (Or.inl ⟨u.id, rfl⟩), ?_, ?_,
    Or.inr (Or.inr (Or.inl ⟨u.id, rfl⟩)), voice_tag_ne_agent_tag u.id⟩
  · intro m hm
    rcases List.mem_cons.mp hm with rfl | hm2
    · exact Or.inr (Or.inr (Or.inr ⟨senderPhone, rfl⟩))
    · rcases List.mem_cons.mp hm2 with rfl | hm3
      · exact Or.inr (Or.inl ⟨u.id, rfl⟩)
      · simp at hm3
  · intro m hm hrole
    rcases List.mem_cons.mp hm with rfl | hm2
    · exact sms_tag_ne_agent_tag senderPhone
    · rcases List.mem_cons.mp hm2 with rfl | hm3
      · simp at hrole
      · simp at hm3

/-- Witness for C9 (amended) on a concrete request. -/
theorem sender_id_tagged_union_amended_witness :
    ¬ strTrim "hi" = "" ∧
    (∃ r, chat [("sean", 0)] ⟨"u1", "Sean"⟩ ⟨[], []⟩ "hi"
        (ModelOutcome.ok "hello") = Except.ok r ∧
      r.finalState.msgs =
        [] ++ [userMsgOf ⟨"u1", "Sean"⟩ (strTrim "hi"), r.reply] ∧
      TaggedForm (userMsgOf ⟨"u1", "Sean"⟩ (strTrim "hi")).sender_id ∧
      NonAgentId (userMsgOf ⟨"u1", "Sean"⟩ (strTrim "hi")).sender_id ∧
      (userMsgOf ⟨"u1", "Sean"⟩ (strTrim "hi")).role = "user" ∧
      r.reply.sender_id = "agent:" ++ "u1" ∧
      r.reply.role = "assistant" ∧
      TaggedForm r.reply.sender_id ∧
      (∀ m ∈ smsMsgs ⟨"u1", "Sean"⟩ "+15550100" "ping" "pong",
        TaggedForm m.sender_id) ∧
      (∀ m ∈ smsMsgs ⟨"u1", "Sean"⟩ "+15550100" "ping" "pong",
        m.role = "user" → NonAgentId m.sender_id) ∧
      TaggedForm (voiceUserMsg ⟨"u1", "Sean"⟩ "hello there").sender_id ∧
      NonAgentId (voiceUserMsg ⟨"u1", "Sean"⟩ "hello there").sender_id) :=
  ⟨by decide,
   sender_id_tagged_union_amended [("sean", 0)] ⟨"u1", "Sean"⟩ ⟨[], []⟩ "hi"
     (ModelOutcome.ok "hello") "+15550100" "ping" "pong" "hello there"
     (by decide)⟩

-- ───────────────────────── claim C7 ─────────────────────────

/-- A 31-message store: 30 old messages then one newest message. -/
def exHist31 : List Msg :=
  List.replicate 30
    ({ sender_id := "user:u", sender_name := "u", role := "user",
       content := "old" } : Msg) ++
  [({ sender_id := "user:u", sender_name := "u", role := "user",
      content := "NEW" } : Msg)]

/-- A message whose content (301 characters) exceeds the 300-character cap. -/
def exLongMsg : Msg :=
  { sender_id := "user:u", sender_name := "u", role := "user",
    content := String.mk (List.replicate 301 'a') }

set_option maxRecDepth 8000 in
/-- Counterexample for C7 as stated: with 31 stored messages the rendered
history holds 30 lines but omits the newest message (the slice is the oldest
30, not the most recent), and a line whose content exceeds the 300-character
cap is cut at 300 characters with no ellipsis marker (`"..."` or the single
ellipsis character) appended. -/
theorem context_builder_counterexample :
    (historyLines exHist31).length = 30 ∧
    "u: NEW" ∉ historyLines exHist31 ∧
    historyLine exLongMsg = "u: " ++ String.mk (List.replicate 300 'a') ∧
    containsSubstr (historyLine exLongMsg) "..." = false ∧
    containsSubstr (historyLine exLongMsg) "…" = false := by
  refine ⟨?_, ?_, ?_, ?_, ?_⟩ <;> decide

/-- Claim C7 as amended: the Context Builder's output holds at most 30
history lines and at most 15 activity lines regardless of store size; the
message slice is the oldest 30 messages in ascending order (appending newer
messages past 30 leaves the rendered history unchanged), while the activity
slice is the most recent 15 (prepending older activities past 15 leaves it
unchanged); each history line's content is truncated to the 300-character
cap with no ellipsis marker. -/
theorem context_builder_bounds_amended (msgs more : List Msg)
    (acts pre : List Act) :
    (historyLines msgs).length ≤ 30 ∧
    (activityLines acts).length ≤ 15 ∧
    (msgs.length = 30 → historyLines (msgs ++ more) = historyLines msgs) ∧
    (acts.length = 15 → activityLines (pre ++ acts) = activityLines acts) ∧
    (∀ m : Msg, (strTake 300 m.content).length ≤ 300 ∧
      historyLine m = m.sender_name ++ ": " ++ strTake 300 m.content) := by
  refine ⟨?_, ?_, ?_, ?_, ?_⟩
  · simp only [historyLines, List.length_map, List.length_take]
    omega
  · simp only [activityLines, List.length_map, List.length_reverse,
      List.length_take]
    omega
  · intro h30
    simp only [historyLines, List.take_append_eq_append_take, h30]
    simp
  · intro h15
    have h2 : acts.reverse.length = 15 := by
      rw [List.length_reverse, h15]
    simp only [activityLines, List.reverse_append]
    rw [← h2, List.take_left, List.take_length]
  · intro m
    constructor
    · simp only [strTake, String.length, List.length_take]
      omega
    · rfl

/-- A boundary-size store for the C7 witness: exactly 30 messages. -/
def exHist30 : List Msg :=
  List.replicate 30
    ({ sender_id := "user:a", sender_name := "a", role := "user",
       content := "x" } : Msg)

/-- One extra (newer) message for the C7 witness. -/
def exNewer : List Msg :=
  [({ sender_id := "user:a", sender_name := "a", role := "user",
      content := "y" } : Msg)]

/-- A boundary-size activity store for the C7 witness: exactly 15 rows. -/
def exActs15 : List Act :=
  List.replicate 15 ({ user_name := "b", summary := "newer" } : Act)

/-- One extra (older) activity row for the C7 witness. -/
def exOlder : List Act := [({ user_name := "a", summary := "older" } : Act)]

/-- Witness for C7 (amended) on concrete stores of boundary size. -/
theorem context_builder_bounds_amended_witness :
    historyLines (exHist30 ++ exNewer) = historyLines exHist30 ∧
    activityLines (exOlder ++ exActs15) = activityLines exActs15 :=
  ⟨(context_builder_bounds_amended exHist30 exNewer [] []).2.2.1 (by decide),
   (context_builder_bounds_amended [] [] exActs15 exOlder).2.2.2.1 (by decide)⟩

-- ───────────────────────── claim C10 ─────────────────────────

theorem lookup_mem_snd {k : String} {c : Client} :
    ∀ l : List (String × Client), l.lookup k = some c → c ∈ l.map Prod.snd := by
  intro l
  induction l with
  | nil => intro h; simp [List.lookup] at h
  | cons p rest ih =>
    intro h
    cases p with
    | mk k2 v =>
      rw [List.lookup] at h
      cases hb : (k == k2) with
      | true =>
        rw [hb] at h
        simp at h
        simp [h]
      | false =>
        rw [hb] at h
        exact List.mem_cons_of_mem _ (ih h)

/-- Claim C10: for every user record — name present, empty, `None`, or not a
configured agent name — `_client_for_user` returns (totally, never raising):
the client registered under the trimmed lowercase name when present,
otherwise the client registered under `"sean"` when present, otherwise the
first configured client; any returned client is one of the configured
clients, and with a non-empty pool the result is never `None`. -/
theorem client_for_user_fallback_total (clients : List (String × Client))
    (name? : Option String) :
    (∀ c, clients.lookup (strLower (strTrim (name?.getD ""))) = some c →
      client_for_user clients name? = some c) ∧
    (clients.lookup (strLower (strTrim (name?.getD ""))) = none →
      ∀ c, clients.lookup "sean" = some c →
        client_for_user clients name? = some c) ∧
    (clients.lookup (strLower (strTrim (name?.getD ""))) = none →
      clients.lookup "sean" = none →
      client_for_user clients name? = (clients.map Prod.snd).head?) ∧
    (∀ c, client_for_user clients name? = some c → c ∈ clients.map Prod.snd) ∧
    (clients ≠ [] → ∃ c, client_for_user clients name? = some c) := by
  refine ⟨?_, ?_, ?_, ?_, ?_⟩
  · intro c h1
    simp [client_for_user, h1]
  · intro h1 c h2
    simp [client_for_user, h1, h2]
  · intro h1 h2
    simp [client_for_user, h1, h2]
  · intro c hc
    simp only [client_for_user] at hc
    cases h1 : clients.lookup (strLower (strTrim (name?.getD ""))) with
    | some c1 =>
      rw [h1] at hc
      simp at hc
      exact hc ▸ lookup_mem_snd clients h1
    | none =>
      rw [h1] at hc
      cases h2 : clients.lookup "sean" with
      | some c2 =>
        rw [h2] at hc
        simp at hc
        exact hc ▸ lookup_mem_snd clients h2
      | none =>
        rw [h2] at hc
        cases clients with
        | nil => simp at hc
        | cons p rest =>
          simp at hc
          simp [← hc]
  · intro hne
    simp only [client_for_user]
    cases h1 : clients.lookup (strLower (strTrim (name?.getD ""))) with
    | some c1 => exact ⟨c1, rfl⟩
    | none =>
      cases h2 : clients.lookup "sean" with
      | some c2 => exact ⟨c2, rfl⟩
      | none =>
        cases clients with
        | nil => exact absurd rfl hne
        | cons p rest => exact ⟨p.2, rfl⟩

/-- Witness for C10: lookups across the fallback chain on the configured
pool of config.py (`sean`, `yug`), including an unconfigured and a `None`
name. -/
theorem client_for_user_fallback_total_witness :
    client_for_user [("sean", 0), ("yug", 1)] (some "  Yug ") = some 1 ∧
    client_for_user [("sean", 0), ("yug", 1)] (some "Coordinator") = some 0 ∧
    client_for_user [("sean", 0), ("yug", 1)] none = some 0 ∧
    (∃ c, client_for_user [("sean", 0), ("yug", 1)] (some "") = some c) :=
  ⟨(client_for_user_fallback_total [("sean", 0), ("yug", 1)]
      (some "  Yug ")).1 1 (by decide),
   (client_for_user_fallback_total [("sean", 0), ("yug", 1)]
      (some "Coordinator")).2.1 (by decide) 0 (by decide),
   (client_for_user_fallback_total [("sean", 0), ("yug", 1)] none).2.1
      (by decide) 0 (by decide),
   (client_for_user_fallback_total [("sean", 0), ("yug", 1)]
      (some "")).2.2.2.2 (by decide)⟩
